import Mathlib

/-!
Verification development for the plan-validation engine of the repository
(`validatePlan.py`).  The Python source is shallowly embedded: JSON documents
become the `Json` inductive, the pure validation passes become Lean functions
translated line-by-line from `PlanValidator`, and the stateful sandbox
validation loop becomes an explicit state-passing function with a fuel
argument that mirrors the bounded `while retry_count < max_attempts` loop.
External effects (the NiFi runtime and the text-completion oracle) are
modelled as oracles supplied per creation attempt.  Python runtime
exceptions that the source can actually raise on the modelled paths
(`NameError` for locals that are only conditionally bound, `KeyError` for
missing response keys) are modelled explicitly, since they determine
control flow the claims care about.
-/

set_option autoImplicit false

/-- A JSON value, as produced by `json.load` in the source.  Numbers are
modelled as integers (no claim depends on floats). -/
inductive Json where
  | null : Json
  | bool : Bool → Json
  | num : Int → Json
  | str : String → Json
  | arr : List Json → Json
  | obj : List (String × Json) → Json

/-- Lookup of a key in a JSON object, i.e. Python `d.get(k)` /
`k in d` on a dict.  Python dict keys are unique; we take the first match. -/
def jlookup (kvs : List (String × Json)) (k : String) : Option Json :=
  (kvs.find? (fun kv => kv.1 == k)).map (·.2)

/-- Python truthiness of a JSON value (`if not data: ...`). -/
def jtruthy : Json → Bool
  | .null => false
  | .bool b => b
  | .num n => n != 0
  | .str s => s != ""
  | .arr xs => !xs.isEmpty
  | .obj kvs => !kvs.isEmpty

/-- Python `type(v).__name__` for a JSON value. -/
def jsonTypeName : Json → String
  | .null => "NoneType"
  | .bool _ => "bool"
  | .num _ => "int"
  | .str _ => "str"
  | .arr _ => "list"
  | .obj _ => "dict"

/-- The expected Python types used by `validate_structure`
(`str`, `dict`, `list`). -/
inductive JTy where
  | str
  | dict
  | list
  deriving DecidableEq

/-- Python `isinstance(v, ty)` for the three types the checker uses. -/
def tyMatches : JTy → Json → Bool
  | .str, .str _ => true
  | .dict, .obj _ => true
  | .list, .arr _ => true
  | _, _ => false

/-- Rendered name of the expected type, as used in the error messages
(`"string"`, `"object"`, `"array"`). -/
def tyName : JTy → String
  | .str => "string"
  | .dict => "object"
  | .list => "array"

/-- One field check of the per-element loops of `validate_structure`
(`if field not in elem ... elif not isinstance(elem[field], ty) ...`). -/
def checkOneField (pre : String) (kvs : List (String × Json)) (fty : String × JTy) :
    List String :=
  match jlookup kvs fty.1 with
  | none => [pre ++ ": Missing required field `" ++ fty.1 ++ "`"]
  | some v =>
      if tyMatches fty.2 v then []
      else [pre ++ ": Field `" ++ fty.1 ++ "` must be a " ++ tyName fty.2 ++
            ", got " ++ jsonTypeName v]

/-- The required-field loop of `validate_structure` for one processor or
connection element.  The source indexes the element with `field not in
processor`; a non-dict element would raise `TypeError` in Python, which no
claim exercises — such elements are reported here as missing every field. -/
def checkFields (pre : String) (reqs : List (String × JTy)) : Json → List String
  | .obj kvs => (reqs.map (checkOneField pre kvs)).flatten
  | _ => reqs.map (fun fty => pre ++ ": Missing required field `" ++ fty.1 ++ "`")

/-- Required fields of each processor element (`required_processor_fields`). -/
def requiredProcessorFields : List (String × JTy) :=
  [("id", .str), ("name", .str), ("properties", .dict), ("scheduling", .dict),
   ("auto_terminated_relationships", .list), ("type", .str)]

/-- Required fields of each connection element (`required_connection_fields`). -/
def requiredConnectionFields : List (String × JTy) :=
  [("from_id", .str), ("to_id", .str), ("relationships", .list)]

/-- The `plan_summary` check of `validate_structure`. -/
def checkPlanSummary (kvs : List (String × Json)) : List String :=
  match jlookup kvs "plan_summary" with
  | none => ["Missing required field: `plan_summary`"]
  | some v =>
      if tyMatches .str v then []
      else ["Field `plan_summary` must be a string (markdown)"]

/-- The per-element loops over `processors` (part b of the processors
section): the source guards them with `isinstance(details.get("processors"),
list)`. -/
def checkProcessorsLoop (dkvs : List (String × Json)) : List String :=
  match jlookup dkvs "processors" with
  | some (.arr procs) =>
      ((procs.enum).map (fun ip =>
        checkFields ("Processor[" ++ toString ip.1 ++ "]") requiredProcessorFields ip.2)).flatten
  | _ => []

/-- The presence/type checks on `plan_details.processors`. -/
def checkProcessorsField (dkvs : List (String × Json)) : List String :=
  match jlookup dkvs "processors" with
  | none => ["Missing required field in plan_details: `processors`"]
  | some v =>
      if tyMatches .list v then []
      else ["Field `plan_details.processors` must be an array (list)"]

/-- The `connections` section of `validate_structure`: presence/type check,
and the per-element loop in the `else` branch. -/
def checkConnectionsSection (dkvs : List (String × Json)) : List String :=
  match jlookup dkvs "connections" with
  | none => ["Missing required field in plan_details: `connections`"]
  | some v =>
      match v with
      | .arr conns =>
          ((conns.enum).map (fun ic =>
            checkFields ("Connection[" ++ toString ic.1 ++ "]") requiredConnectionFields ic.2)).flatten
      | _ => ["Field `plan_details.connections` must be an array (list)"]

/-- `PlanValidator.validate_structure`, translated from the source.  The
loaded document is a JSON value; a falsy document short-circuits
(`if not self.data: return`).  A truthy non-dict document would raise
`TypeError` in Python at the membership tests; no claim exercises that path
and it is modelled as producing no errors. -/
def validate_structure : Json → List String
  | .obj kvs =>
      if (Json.obj kvs |> jtruthy) = false then []
      else
        checkPlanSummary kvs ++
        (match jlookup kvs "plan_details" with
         | none => ["Missing required field: `plan_details`"]
         | some d =>
             match d with
             | .obj dkvs =>
                 checkProcessorsField dkvs ++ checkProcessorsLoop dkvs ++
                 checkConnectionsSection dkvs
             | _ => ["Field `plan_details` must be an object (dict)"])
  | _ => []

example :
    validate_structure (.obj [("plan_summary", .str "s"),
      ("plan_details", .obj [("processors", .arr []), ("connections", .arr [])])]) = [] := by
  decide

example :
    validate_structure (.obj [("plan_summary", .num 3)]) =
      ["Field `plan_summary` must be a string (markdown)",
       "Missing required field: `plan_details`"] := by
  decide

/-- A processor entry of `plan_details.processors`, after the structural
checks have established field presence and types (the shape the later
passes read through `.get`).  Property values are the string values the
plan carries (`clean_properties` keeps exactly the string-valued ones);
`scheduling` is carried opaquely as its key/value pairs since the engine
itself never inspects it. -/
structure SProc where
  id : String
  name : String
  ptype : String
  properties : List (String × String)
  scheduling : List (String × String)
  autoTerminated : List String
  deriving DecidableEq

/-- A connection entry of `plan_details.connections`. -/
structure SConn where
  cid : String
  fromId : String
  toId : String
  relationships : List String
  deriving DecidableEq

/-- Structured validation errors appended to `self.errors`.  Each
constructor carries exactly the data interpolated into the corresponding
f-string of the source. -/
inductive VErr where
  | typeNotFound (index : Nat) (name ptype : String)
  | typeAmbiguous (index : Nat) (name ptype : String) (candidates : List String)
  | csPlaceholder (index : Nat) (name prop : String)
  | createFailed (index : Nat) (name : String) (status : Nat) (text : String)
  | apiError (index : Nat) (name : String)
  | configError (index : Nat) (name msg : String)
  | relationshipError (index : Nat) (name : String) (unaccounted : Finset String)
  deriving DecidableEq

/-- Python `s.endswith(suffix)`, computed on the character lists (the
builtin `String.endsWith` does not reduce inside the kernel). -/
def strEndsWith (s suffix : String) : Bool :=
  suffix.data.isSuffixOf s.data

/-- Python `s.startswith(pre)`, computed on the character lists. -/
def strStartsWith (s pre : String) : Bool :=
  pre.data.isPrefixOf s.data

/-- The candidate scan of `validate_processor_types`:
`fqcn.endswith("." + p_type) or fqcn == p_type` over the catalog. -/
def typeMatches (catalog : List String) (t : String) : List String :=
  catalog.filter (fun f => strEndsWith f ("." ++ t) || f == t)

/-- One iteration of the `validate_processor_types` loop, translated from
the source: empty type is skipped (`if not p_type: continue`), an exact
catalog match is skipped, one candidate rewrites `type` in place and flags
the change, several candidates yield the ambiguity error, none yields the
does-not-exist error.  Returns the (possibly rewritten) processor, the
errors appended, and whether `changes_made` was set. -/
def resolveOne (catalog : List String) (index : Nat) (p : SProc) :
    SProc × List VErr × Bool :=
  if p.ptype = "" then (p, [], false)
  else if p.ptype ∈ catalog then (p, [], false)
  else
    match typeMatches catalog p.ptype with
    | [] => (p, [.typeNotFound index p.name p.ptype], false)
    | [m] =>
        if p.ptype ≠ m then ({ p with ptype := m }, [], true)
        else (p, [], false)
    | ms => (p, [.typeAmbiguous index p.name p.ptype ms], false)

/-- `PlanValidator.validate_processor_types` over the processor list:
folds `resolveOne`, accumulating rewritten processors, errors and the
`changes_made` flag. -/
def validateProcessorTypes (catalog : List String) (procs : List SProc) :
    List SProc × List VErr × Bool :=
  (procs.enum).foldl
    (fun acc ip =>
      let r := resolveOne catalog ip.1 ip.2
      (acc.1 ++ [r.1], acc.2.1 ++ r.2.1, acc.2.2 || r.2.2))
    ([], [], false)

/-- `PlanValidator.validate_controller_services`: every property whose
value is the sentinel `"CREATE_NEW_CS"` yields one fatal error. -/
def validateControllerServices (procs : List SProc) : List VErr :=
  ((procs.enum).map (fun ip =>
    (ip.2.properties.filter (fun kv => kv.2 == "CREATE_NEW_CS")).map
      (fun kv => VErr.csPlaceholder ip.1 ip.2.name kv.1))).flatten

/-- Python `props.get(k)` on the properties dict. -/
def lookupProp (props : List (String × String)) (k : String) : Option String :=
  (props.find? (fun kv => kv.1 == k)).map (·.2)

/-- Python `props[k] = v` on the properties dict: rewrites the value in
place if the key exists (insertion order kept), appends otherwise. -/
def setProp (props : List (String × String)) (k v : String) :
    List (String × String) :=
  if (props.find? (fun kv => kv.1 == k)).isSome then
    props.map (fun kv => if kv.1 = k then (k, v) else kv)
  else props ++ [(k, v)]

/-- A property descriptor as returned by the runtime in
`component.config.descriptors`: whether the `identifiesControllerService`
key is present, and the values of the `allowableValues` list if that key
is present and non-null. -/
structure RDescriptor where
  identifiesCS : Bool
  allowableValues : Option (List String)
  deriving DecidableEq

/-- The auto-correct block of `validate_processor_configuration`
(lines 291–307): for each descriptor that identifies a controller service
and has exactly one allowable value, rewrite the property to that value if
it differs, setting `changes_made`.  The fold threads the properties dict
(descriptor keys are unique, so reading the threaded dict agrees with the
source, which reads the aliased `p_properties`). -/
def autoCorrectFold (descs : List (String × RDescriptor))
    (acc : List (String × String) × Bool) : List (String × String) × Bool :=
  descs.foldl
    (fun acc pd =>
      if pd.2.identifiesCS then
        match pd.2.allowableValues with
        | some [v] =>
            if lookupProp acc.1 pd.1 ≠ some v then (setProp acc.1 pd.1 v, true)
            else acc
        | _ => acc
      else acc)
    acc

/-- The auto-correct pass starting from the plan's current properties. -/
def autoCorrectAll (descs : List (String × RDescriptor))
    (props : List (String × String)) : List (String × String) × Bool :=
  autoCorrectFold descs (props, false)

/-- The keys of `connections_map`: `from_id` of every connection with a
truthy `from_id` (`if src:`). -/
def connectionSources (conns : List SConn) : List String :=
  (conns.filter (fun c => c.fromId ≠ "")).map (·.fromId)

/-- `connections_map[pid]`: the union of the relationship sets of the
connections whose truthy `from_id` equals `pid`. -/
def connectedRels (conns : List SConn) (pid : String) : Finset String :=
  conns.foldl
    (fun acc c =>
      if c.fromId = pid ∧ c.fromId ≠ "" then acc ∪ c.relationships.toFinset
      else acc)
    ∅

/-- The relationship-error computation of
`validate_processor_configuration` (lines 329–342): only processors that
appear in `connections_map` are checked; the unaccounted set is the
runtime-reported available relationships minus auto-terminated and
connected ones, and a single error carrying that set is produced when it
is non-empty. -/
def relationshipErrors (conns : List SConn) (p : SProc) (avail : Finset String) :
    List (Finset String) :=
  if p.id ∈ connectionSources conns then
    let unacc := avail \ (p.autoTerminated.toFinset ∪ connectedRels conns p.id)
    if unacc = ∅ then [] else [unacc]
  else []

example : resolveOne ["org.a.JsonReader", "org.b.JsonReader"] 0
    ⟨"p1", "n", "JsonReader", [], [], []⟩ =
    (⟨"p1", "n", "JsonReader", [], [], []⟩,
     [.typeAmbiguous 0 "n" "JsonReader" ["org.a.JsonReader", "org.b.JsonReader"]],
     false) := by
  decide

example : resolveOne ["org.a.RunMongoAggregation"] 0
    ⟨"p1", "n", "RunMongoAggregation", [], [], []⟩ =
    (⟨"p1", "n", "org.a.RunMongoAggregation", [], [], []⟩, [], true) := by
  decide

example : relationshipErrors [⟨"c1", "p1", "p2", ["success"]⟩]
    ⟨"p1", "n", "t", [], [], ["failure"]⟩ ({"success", "failure"} : Finset String) = [] := by
  decide

example : relationshipErrors []
    ⟨"p1", "n", "t", [], [], ["failure"]⟩ ({"success", "failure"} : Finset String) = [] := by
  decide

/-- The single-quote character, used by the runtime error messages the
config filter matches on. -/
def sqt : String := String.mk [Char.ofNat 39]

/-- The message appended for a property key that a non-dynamic processor
type does not declare (line 318 of the source). -/
def dynPropMsg (k : String) : String :=
  "Property " ++ sqt ++ k ++ sqt ++
  " is invalid because the processor does not support dynamic properties. It must be removed."

/-- The config-error filter (lines 323–327): drop runtime diagnostics that
start with `'Relationship` or `'Upstream Connections`. -/
def filterRelUpstream (errs : List String) : List String :=
  errs.filter (fun e =>
    !(strStartsWith e (sqt ++ "Relationship") || strStartsWith e (sqt ++ "Upstream Connections")))

/-- Python `needle in hay` on strings (substring containment). -/
def strContainsSub (hay needle : String) : Bool :=
  (hay.data.tails).any (fun t => needle.data.isPrefixOf t)

/-- Python `s.lower()` (ASCII case folding suffices for the matched text). -/
def strToLower (s : String) : String :=
  String.mk (s.data.map Char.toLower)

/-- Engine configuration: `MAX_VALIDATION_FIX_RETRIES` and whether
`GEMINI_API_KEY` is set (which is what gates every oracle consult). -/
structure EngCfg where
  maxRetries : Nat
  hasKey : Bool

/-- The parts of a successful `POST .../processors` response the engine
reads: `component.config.descriptors` (absent when the response carries no
`config`/`descriptors`), `component.supportsDynamicProperties`,
`component.relationships` and `component.validationErrors`. -/
structure RCreateResp where
  instId : String
  descriptors : Option (List (String × RDescriptor))
  supportsDynamic : Bool
  relationships : Option (List String)
  validationErrors : List String
  deriving DecidableEq

/-- Outcome of one creation attempt against the runtime: a transport
error (`requests.exceptions.RequestException`), a non-201 HTTP response,
or a created sandbox instance. -/
inductive CreateOutcome where
  | network
  | httpErr (status : Nat) (text : String)
  | created (resp : RCreateResp)

/-- A configuration fix returned by the oracle client: the optional
`properties` and `auto_terminated_relationships` keys the engine applies
(`if "properties" in fixes`, `if "auto_terminated_relationships" in fixes`). -/
structure CFix where
  properties : Option (List (String × String))
  autoTerm : Option (List String)
  deriving DecidableEq

/-- The external world of one processor's validation: the runtime response
and the oracle results, per creation-attempt ordinal.  `none` from an
oracle models every falsy return of the resolver functions. -/
structure SandboxEnv where
  create : Nat → CreateOutcome
  configFix : Nat → Option CFix
  schedFix : Nat → Option (List (String × String))

/-- Python exceptions the modelled code can raise: `NameError` for the
conditionally-bound locals of the dynamic-properties block, `KeyError`
for a missing response key. -/
inductive PyExc where
  | nameError (v : String)
  | keyError (k : String)
  deriving DecidableEq

/-- State threaded through `validate_processor_configuration`: the current
processor entry of `self.data`, `self.errors`, `self.changes_made`, and the
instrumentation the claims are about (creation attempts, live sandbox
instances, delete calls).  `cpdVar`, `vdVar`, `feVar` model the function
locals `current_props_dict`, `valid_descriptors` and `filtered_errors`,
which are only conditionally (re)bound — `none` means unbound, so that
reading them raises `NameError` exactly as in the source. -/
structure SandState where
  proc : SProc
  errors : List VErr
  changes : Bool
  attempts : Nat
  created : Nat
  deleteCalls : Nat
  cpdVar : Option (List (String × String))
  vdVar : Option (List String)
  feVar : Option (List String)
  deriving DecidableEq

/-- Result of a processor's validation: the final state, and the Python
exception that escaped the loop, if any (only
`requests.exceptions.RequestException` is caught by the source). -/
structure SandResult where
  st : SandState
  exc : Option PyExc
  deriving DecidableEq

/-- The misindented dynamic-properties loop (lines 315–318 of the source):
iterates over the keys of `current_props_dict`, testing membership in
`valid_descriptors` and appending to `filtered_errors` — each a local that
may be unbound at this point, in which case Python raises `NameError`.
Returns the final value of `filtered_errors`. -/
def dynPropsLoop (vd : Option (List String)) :
    Option (List String) → List String → Except PyExc (Option (List String))
  | fe, [] => .ok fe
  | fe, k :: ks =>
      match vd with
      | none => .error (.nameError "valid_descriptors")
      | some vds =>
          if k ∈ vds then dynPropsLoop vd fe ks
          else
            match fe with
            | none => .error (.nameError "filtered_errors")
            | some fes => dynPropsLoop vd (some (fes ++ [dynPropMsg k])) ks

/-- One iteration of the retry loop of
`validate_processor_configuration` (lines 240–405), translated from the
source.  `inl` is a `break`, a `return`-with-error, or an escaping
exception; `inr` is a `continue` (both `continue` sites first increment
`retry_count`).  The creation attempt counter is incremented on every
iteration, since the POST is issued on every path. -/
def attemptBody (cfg : EngCfg) (env : SandboxEnv) (index : Nat) (conns : List SConn)
    (rc : Nat) (st : SandState) : SandResult ⊕ SandState :=
  let proc := st.proc
  let n := st.attempts
  let st1 : SandState := { st with attempts := n + 1 }
  match env.create n with
  | .network =>
      .inl ⟨{ st1 with errors := st1.errors ++ [.apiError index proc.name] }, none⟩
  | .httpErr status text =>
      if status = 400 ∧ strContainsSub (strToLower text) "scheduling period" = true ∧
          rc < cfg.maxRetries ∧ cfg.hasKey = true then
        match env.schedFix n with
        | some fx => .inr { st1 with proc := { proc with scheduling := fx }, changes := true }
        | none =>
            .inl ⟨{ st1 with errors := st1.errors ++ [.createFailed index proc.name status text] },
                  none⟩
      else
        .inl ⟨{ st1 with errors := st1.errors ++ [.createFailed index proc.name status text] },
              none⟩
  | .created resp =>
      let stC := { st1 with created := st1.created + 1 }
      let acRes :=
        match resp.descriptors with
        | some ds => autoCorrectAll ds proc.properties
        | none => (proc.properties, false)
      let proc1 := { proc with properties := acRes.1 }
      let st2 := { stC with proc := proc1, changes := stC.changes || acRes.2 }
      let dynBind := resp.supportsDynamic = false ∧ resp.descriptors.isSome = true
      let cpd := if dynBind then some acRes.1 else st2.cpdVar
      let vd :=
        if dynBind then some ((resp.descriptors.getD []).map (·.1)) else st2.vdVar
      match cpd with
      | none => .inl ⟨{ st2 with cpdVar := cpd, vdVar := vd }, some (.nameError "current_props_dict")⟩
      | some cpdL =>
          match dynPropsLoop vd st2.feVar (cpdL.map (·.1)) with
          | .error e => .inl ⟨{ st2 with cpdVar := cpd, vdVar := vd }, some e⟩
          | .ok _ =>
              -- line 323 rebinds `filtered_errors`, discarding whatever the
              -- dynamic-properties loop appended to its previous value
              let filtered := filterRelUpstream resp.validationErrors
              let availRels := (resp.relationships.getD []).toFinset
              let relErrs := relationshipErrors conns proc1 availRels
              let allErrs : List VErr :=
                filtered.map (fun e => VErr.configError index proc.name e) ++
                relErrs.map (fun s => VErr.relationshipError index proc.name s)
              let st3 := { st2 with
                cpdVar := cpd
                vdVar := vd
                feVar := some filtered
                deleteCalls := st2.deleteCalls + 1
                created := st2.created - 1 }
              if allErrs.isEmpty = true then .inl ⟨st3, none⟩
              else if rc < cfg.maxRetries ∧ cfg.hasKey = true ∧
                  (filtered ≠ [] ∨ relErrs ≠ []) then
                match resp.descriptors with
                | none => .inl ⟨st3, some (.keyError "descriptors")⟩
                | some _ =>
                    match env.configFix n with
                    | some fx =>
                        let proc2 := { proc1 with
                          properties := fx.properties.getD proc1.properties,
                          autoTerminated := fx.autoTerm.getD proc1.autoTerminated }
                        .inr { st3 with
                          proc := proc2
                          changes := st3.changes || fx.properties.isSome || fx.autoTerm.isSome }
                    | none => .inl ⟨{ st3 with errors := st3.errors ++ allErrs }, none⟩
              else .inl ⟨{ st3 with errors := st3.errors ++ allErrs }, none⟩

/-- The `while retry_count < max_attempts` loop: `fuel` is the number of
remaining permitted iterations (`max_attempts - retry_count`), which
strictly decreases since both `continue` sites increment `retry_count`. -/
def attemptLoop (cfg : EngCfg) (env : SandboxEnv) (index : Nat) (conns : List SConn) :
    Nat → Nat → SandState → SandResult
  | 0, _, st => ⟨st, none⟩
  | fuel + 1, rc, st =>
      match attemptBody cfg env index conns rc st with
      | .inl res => res
      | .inr st' => attemptLoop cfg env index conns fuel (rc + 1) st'

/-- `max_attempts = self.max_retries + 1 if self.gemini_api_key else 1`. -/
def maxAttemptsOf (cfg : EngCfg) : Nat :=
  if cfg.hasKey then cfg.maxRetries + 1 else 1

/-- Fresh per-run state for a processor (locals unbound, nothing created). -/
def initSandState (proc : SProc) : SandState :=
  ⟨proc, [], false, 0, 0, 0, none, none, none⟩

/-- Validation of a single processor: the full retry loop started with
`retry_count = 0` and the attempt budget of the source. -/
def validateOneProc (cfg : EngCfg) (env : SandboxEnv) (index : Nat) (conns : List SConn)
    (proc : SProc) : SandResult :=
  attemptLoop cfg env index conns (maxAttemptsOf cfg) 0 (initSandState proc)

/-- The outer `for index, processor in enumerate(processors)` loop of
`validate_processor_configuration`: processors are validated strictly in
sequence, errors/changes/locals persist across them, and an escaping
exception aborts the whole pass. -/
def allProcsAux (cfg : EngCfg) (envs : Nat → SandboxEnv) (conns : List SConn) :
    List (Nat × SProc) → SandState → SandResult
  | [], st => ⟨st, none⟩
  | ip :: rest, st =>
      let r := attemptLoop cfg (envs ip.1) ip.1 conns (maxAttemptsOf cfg) 0
        { st with proc := ip.2 }
      match r.exc with
      | some e => ⟨r.st, some e⟩
      | none => allProcsAux cfg envs conns rest r.st

/-- `PlanValidator.validate_processor_configuration` over a whole plan:
builds the connection map once from the plan's connections and folds the
per-processor loop. -/
def validateProcessorConfiguration (cfg : EngCfg) (envs : Nat → SandboxEnv)
    (conns : List SConn) (procs : List SProc) : SandResult :=
  allProcsAux cfg envs conns procs.enum
    ⟨⟨"", "", "", [], [], []⟩, [], false, 0, 0, 0, none, none, none⟩

/-- A plan document in the typed shape the post-structural passes read
(`plan_details.processors` / `plan_details.connections`).  Documents of
this shape pass `validate_structure` with no errors (all required fields
present with the required types). -/
structure Plan where
  processors : List SProc
  connections : List SConn
  deriving DecidableEq

/-- The initial validation pass of `PlanValidator.run` (the
`initial_validations` list): `validate_structure` (no errors on documents
of the typed shape), then `validate_processor_types`, then
`validate_controller_services`; errors accumulate in that order and
`changes_made` is whatever the types pass set. -/
def initialPass (catalog : List String) (pl : Plan) : Plan × List VErr × Bool :=
  let r := validateProcessorTypes catalog pl.processors
  let cs := validateControllerServices r.1
  ({ pl with processors := r.1 }, r.2.1 ++ cs, r.2.2)

/-- The options of the structural-failure prompt in `run`. -/
inductive UserChoice where
  | retry
  | llmFix
  | exitChoice

/-- Net outcome of `validate_processor_configuration` as seen by `run`:
either it returns, having possibly set `changes_made` and left
`self.errors` empty or not, or an exception escapes it (the `NameError`
paths proven reachable for C1/C9 are such exceptions), possibly after
repairs were already applied to the in-memory plan. -/
inductive SandboxOutcome where
  | crash (changedBefore : Bool)
  | done (changed : Bool) (clean : Bool)

/-- External collaborators of `run`: the structural-repair oracle
(`resolve_structure_errors_with_llm`, `none` for every falsy return) per
pass ordinal, and the outcome of the sandbox pass (abstracted to its
effect on `changes_made`/`self.errors`/control flow, since `C8` is about
the save/reload discipline of `run` itself). -/
structure RunEnv where
  structFix : Nat → Option Plan
  sandbox : SandboxOutcome

/-- Observable persistence events of one run: `reload` is `load_plan`
re-reading the on-disk document, `mutate` is any in-memory repair
(`changes_made` set), `save` is `save_plan`, `exitEarly` is the
`exit(1)` at the prompt, `finish` is `_print_errors` terminating the
process after the sandbox pass, and `crash` is the process dying from
an exception that escaped the sandbox pass — before the
`if self.changes_made: save_plan()` at line 711 is reached. -/
inductive RunEvent where
  | reload
  | mutate
  | save
  | exitEarly
  | finish (clean : Bool)
  | crash
  deriving DecidableEq

/-- Events of the post-break part of `run`: the sandbox pass (which may
set `changes_made`, or raise), then — only if it returned — the
`if self.changes_made: self.save_plan()` save and termination via
`_print_errors`. -/
def sandboxTrace (changed : Bool) (env : RunEnv) : List RunEvent :=
  match env.sandbox with
  | .crash ch => (if ch then [RunEvent.mutate] else []) ++ [RunEvent.crash]
  | .done ch clean =>
      (if ch then [RunEvent.mutate] else []) ++
      (if changed || ch then [RunEvent.save] else []) ++
      [RunEvent.finish clean]

/-- `PlanValidator.run`, as the sequence of persistence events it emits:
each `while True` iteration reloads the on-disk plan, runs the initial
pass, and on errors consumes one user choice — `retry` loops with the
disk unchanged (discarding in-memory repairs), a successful LLM
structural fix mutates and saves, a failed one loops without saving,
`exit` terminates.  A clean initial pass breaks to the sandbox phase. -/
def runModel (catalog : List String) (env : RunEnv) :
    List UserChoice → Nat → Plan → List RunEvent
  | [], _, disk =>
      let r := initialPass catalog disk
      let evs0 := RunEvent.reload :: (if r.2.2 then [RunEvent.mutate] else [])
      if r.2.1 = [] then evs0 ++ sandboxTrace r.2.2 env else evs0
  | c :: rest, passIdx, disk =>
      let r := initialPass catalog disk
      let evs0 := RunEvent.reload :: (if r.2.2 then [RunEvent.mutate] else [])
      if r.2.1 = [] then evs0 ++ sandboxTrace r.2.2 env
      else
        match c with
        | .retry => evs0 ++ runModel catalog env rest (passIdx + 1) disk
        | .llmFix =>
            match env.structFix passIdx with
            | some fixed =>
                evs0 ++ [RunEvent.mutate, RunEvent.save] ++
                runModel catalog env rest (passIdx + 1) fixed
            | none => evs0 ++ runModel catalog env rest (passIdx + 1) disk
        | .exitChoice => evs0 ++ [RunEvent.exitEarly]

/-- Count of persistence violations along a trace: a `reload` or a
process termination reached while an unsaved mutation is outstanding.
`reload` discards the in-memory state, so the dirty flag resets. -/
def violAux : Bool → List RunEvent → Nat
  | _, [] => 0
  | dirty, e :: rest =>
      match e with
      | .reload => (if dirty then 1 else 0) + violAux false rest
      | .mutate => violAux true rest
      | .save => violAux false rest
      | .exitEarly => (if dirty then 1 else 0) + violAux dirty rest
      | .finish _ => (if dirty then 1 else 0) + violAux dirty rest
      | .crash => (if dirty then 1 else 0) + violAux dirty rest

/-- Violations of at-least-once persistence over a whole run. -/
def traceViolations (evs : List RunEvent) : Nat :=
  violAux false evs

/-- Python truthiness of `d.get(k)` (`None` when the key is absent). -/
def otruthy : Option Json → Bool
  | none => false
  | some v => jtruthy v

/-- Whether a JSON value is an object (`isinstance(fixes, dict)`). -/
def jIsObj : Json → Bool
  | .obj _ => true
  | _ => false

/-- The parse-and-validate step of `resolve_validation_errors_with_llm`
(lines 479–508): the input is the oracle response after markdown-fence
stripping, `none` standing for a `json.JSONDecodeError`.  A non-object
response is rejected, and so is an object in which both `properties` and
`auto_terminated_relationships` are falsy; otherwise the whole parsed
object is returned as the fix. -/
def parseConfigFixes : Option Json → Option Json
  | none => none
  | some j =>
      match j with
      | .obj kvs =>
          if otruthy (jlookup kvs "properties") ||
             otruthy (jlookup kvs "auto_terminated_relationships") then some (.obj kvs)
          else none
      | _ => none

/-- The parse step of `resolve_scheduling_errors_with_llm` (lines
537–561): a parse failure returns no fix; a parsed non-object raises
`AttributeError` at `fixes.get`, swallowed by the enclosing `except`
into no fix; a parsed object returns `fixes.get("scheduling", fixes)` —
the value under `scheduling` if the key is present, the whole object
otherwise. -/
def parseSchedFixes : Option Json → Option Json
  | none => none
  | some j =>
      match j with
      | .obj kvs => some ((jlookup kvs "scheduling").getD (.obj kvs))
      | _ => none

/-- Whether the caller in `validate_processor_configuration` applies a
scheduling fix: `if fixes:` — the parsed result must also be truthy. -/
def schedFixApplied (r : Option Json) : Option Json :=
  match parseSchedFixes r with
  | none => none
  | some v => if jtruthy v then some v else none

/-- Whether the caller applies a configuration fix (`if fixes:`). -/
def configFixApplied (r : Option Json) : Option Json :=
  match parseConfigFixes r with
  | none => none
  | some v => if jtruthy v then some v else none

/-- A processor whose resolved type supports dynamic properties — the
runtime response below reports `supportsDynamicProperties: true`. -/
def procDyn : SProc := ⟨"p1", "ProcA", "org.a.T", [], [], []⟩

/-- Runtime response with `supportsDynamicProperties: true`: the guarded
block binding `current_props_dict` is skipped, yet the loop over it runs. -/
def respDyn : RCreateResp := ⟨"inst1", some [("P", ⟨false, none⟩)], true, some [], []⟩

/-- Environment returning `respDyn` on every creation attempt. -/
def envDyn : SandboxEnv := ⟨fun _ => .created respDyn, fun _ => none, fun _ => none⟩

/-- A processor carrying a property key its type does not declare. -/
def procExtra : SProc := ⟨"p1", "ProcB", "org.a.T", [("extra", "1")], [], []⟩

/-- Runtime response for a non-dynamic type declaring only `known`. -/
def respNoDyn : RCreateResp := ⟨"inst1", some [("known", ⟨false, none⟩)], false, some [], []⟩

/-- Environment returning `respNoDyn` on every creation attempt. -/
def envNoDyn : SandboxEnv := ⟨fun _ => .created respNoDyn, fun _ => none, fun _ => none⟩

/-- A plain processor with no properties or relationships. -/
def procPlain : SProc := ⟨"p1", "P", "t", [], [], []⟩

/-- Runtime response that always reports one configuration error. -/
def respErr : RCreateResp := ⟨"inst1", some [], false, some [], ["bad value"]⟩

/-- Environment with an oracle that never returns a fix. -/
def envNoFix : SandboxEnv := ⟨fun _ => .created respErr, fun _ => none, fun _ => none⟩

/-- Oracle fix that rewrites `auto_terminated_relationships` to `[]`. -/
def fixStat : CFix := ⟨none, some []⟩

/-- Environment whose runtime always reports one configuration error and
whose oracle always returns `fixStat` — the repair loop then re-creates
until the budget is exhausted. -/
def envStat : SandboxEnv := ⟨fun _ => .created respErr, fun _ => some fixStat, fun _ => none⟩

example :
    (validateProcessorConfiguration ⟨3, false⟩ (fun _ => envDyn) [] [procDyn]).exc =
      some (.nameError "current_props_dict") := rfl

example :
    (validateProcessorConfiguration ⟨3, false⟩ (fun _ => envDyn) [] [procDyn]).st.created = 1 := rfl

example :
    (validateProcessorConfiguration ⟨3, true⟩ (fun _ => envNoDyn) [] [procExtra]).exc =
      some (.nameError "filtered_errors") := rfl

example :
    (validateOneProc ⟨3, true⟩ envNoFix 0 [] procPlain).st.attempts = 1 := rfl

example :
    (validateOneProc ⟨3, true⟩ envStat 0 [] procPlain).st.attempts = 4 := rfl

example :
    traceViolations (runModel ["a.Foo"]
      ⟨fun _ => none, .done false true⟩ [.exitChoice] 0
      ⟨[⟨"p1", "N", "Foo", [("svc", "CREATE_NEW_CS")], [], []⟩], []⟩) = 1 := by
  decide

/-- All required fields of an element are present with the required types
(the condition under which the per-element loop of `validate_structure`
reports nothing for that element). -/
def wellTypedElem (reqs : List (String × JTy)) : Json → Bool
  | .obj kvs => reqs.all (fun fty =>
      match jlookup kvs fty.1 with
      | some v => tyMatches fty.2 v
      | none => false)
  | _ => false

/-- The plan document assembled from a summary, processor elements and
connection elements. -/
def mkPlanDoc (s : String) (procs conns : List Json) : Json :=
  .obj [("plan_summary", .str s),
        ("plan_details", .obj [("processors", .arr procs), ("connections", .arr conns)])]

/-- Statement-level accessor following the data model of the spec: the
`id` strings of the plan's processors. -/
def planProcessorIds (j : Json) : List String :=
  match j with
  | .obj kvs =>
      match jlookup kvs "plan_details" with
      | some (.obj dkvs) =>
          match jlookup dkvs "processors" with
          | some (.arr ps) =>
              ps.filterMap (fun p =>
                match p with
                | .obj pkvs =>
                    match jlookup pkvs "id" with
                    | some (.str s) => some s
                    | _ => none
                | _ => none)
          | _ => []
      | _ => []
  | _ => []

/-- Statement-level accessor following the data model of the spec: the
`from_id` strings of the plan's connections. -/
def planConnectionFromIds (j : Json) : List String :=
  match j with
  | .obj kvs =>
      match jlookup kvs "plan_details" with
      | some (.obj dkvs) =>
          match jlookup dkvs "connections" with
          | some (.arr cs) =>
              cs.filterMap (fun c =>
                match c with
                | .obj ckvs =>
                    match jlookup ckvs "from_id" with
                    | some (.str s) => some s
                    | _ => none
                | _ => none)
          | _ => []
      | _ => []
  | _ => []

/-- A structurally well-typed plan whose single connection references the
nonexistent processor id `ghost`. -/
def planDangling : Json :=
  mkPlanDoc "s"
    [.obj [("id", .str "p1"), ("name", .str "N"), ("properties", .obj []),
           ("scheduling", .obj []), ("auto_terminated_relationships", .arr []),
           ("type", .str "t")]]
    [.obj [("from_id", .str "ghost"), ("to_id", .str "p1"),
           ("relationships", .arr [.str "success"])]]

/-- C2 counterexample: `planDangling` has a connection whose `from_id`
(`ghost`) matches no processor id (`p1` is the only one), yet
`validate_structure` reports no error at all — the structural checker
performs no referential-integrity check on connection endpoints. -/
theorem C2_counterexample :
    validate_structure planDangling = [] ∧
    planConnectionFromIds planDangling = ["ghost"] ∧
    planProcessorIds planDangling = ["p1"] ∧
    "ghost" ∉ planProcessorIds planDangling :=
  ⟨rfl, rfl, rfl, by decide⟩

/-- A well-typed element contributes no error to the per-element loop. -/
theorem checkFields_eq_nil (pre : String) (reqs : List (String × JTy)) (j : Json)
    (h : wellTypedElem reqs j = true) : checkFields pre reqs j = [] := by
  cases j with
  | obj kvs =>
      simp only [checkFields, List.flatten_eq_nil_iff]
      intro l hl
      rw [List.mem_map] at hl
      obtain ⟨fty, hmem, rfl⟩ := hl
      have hf := List.all_eq_true.mp h fty hmem
      simp only [checkOneField]
      cases hjl : jlookup kvs fty.1 with
      | none => rw [hjl] at hf; simp at hf
      | some v => rw [hjl] at hf; simp only [] at hf; simp [hf]
  | null => simp [wellTypedElem] at h
  | bool b => simp [wellTypedElem] at h
  | num n => simp [wellTypedElem] at h
  | str s => simp [wellTypedElem] at h
  | arr xs => simp [wellTypedElem] at h

/-- C2: (amended) the structural checker validates only presence and
types of the required fields; for every plan document whose processor and
connection elements are field-complete and well-typed it reports no error,
whatever strings the connection endpoints hold — in particular it reports
no error for a connection whose `from_id`/`to_id` match no processor id
(referential integrity of endpoints is not checked). -/
theorem C2_no_referential_check (s : String) (procs conns : List Json)
    (hp : ∀ p ∈ procs, wellTypedElem requiredProcessorFields p = true)
    (hc : ∀ c ∈ conns, wellTypedElem requiredConnectionFields c = true) :
    validate_structure (mkPlanDoc s procs conns) = [] := by
  simp [mkPlanDoc, validate_structure, jtruthy, jlookup, List.find?, checkPlanSummary,
    checkProcessorsField, checkProcessorsLoop, checkConnectionsSection, tyMatches]
  constructor
  · intro l i p hmem heq
    subst heq
    exact checkFields_eq_nil _ _ _ (hp p (List.getElem?_mem (List.mem_enum_iff_getElem?.mp hmem)))
  · intro l i c hmem heq
    subst heq
    exact checkFields_eq_nil _ _ _ (hc c (List.getElem?_mem (List.mem_enum_iff_getElem?.mp hmem)))

/-- C2 witness: a concrete dangling-endpoint plan passing the amended
statement. -/
theorem C2_no_referential_check_witness :
    (∀ p ∈ [Json.obj [("id", .str "p1"), ("name", .str "N"), ("properties", .obj []),
           ("scheduling", .obj []), ("auto_terminated_relationships", .arr []),
           ("type", .str "t")]], wellTypedElem requiredProcessorFields p = true) ∧
    (∀ c ∈ [Json.obj [("from_id", .str "ghost"), ("to_id", .str "p1"),
           ("relationships", .arr [.str "success"])]],
        wellTypedElem requiredConnectionFields c = true) ∧
    validate_structure planDangling = [] := by
  refine ⟨?_, ?_, ?_⟩
  · intro p hp
    simp only [List.mem_singleton] at hp
    subst hp; rfl
  · intro c hc
    simp only [List.mem_singleton] at hc
    subst hc; rfl
  · exact C2_no_referential_check "s" _ _
      (by intro p hp; simp only [List.mem_singleton] at hp; subst hp; rfl)
      (by intro c hc; simp only [List.mem_singleton] at hc; subst hc; rfl)

/-- The processor with the empty type string of the C4 counterexample. -/
def procEmptyType : SProc := ⟨"x", "n", "", [], [], []⟩

/-- C4 counterexample: the empty type string is not an exact catalog
match and has zero candidates (no catalog identifier ends in `"."`), so
the claim — which quantifies over every processor type string — demands a
`type does not exist` error; but `if not p_type: continue` (line 173)
skips the processor silently: no error, no mutation, no dirty flag. -/
theorem C4_counterexample :
    procEmptyType.ptype ∉ (["a.B"] : List String) ∧
    typeMatches ["a.B"] procEmptyType.ptype = [] ∧
    resolveOne ["a.B"] 0 procEmptyType = (procEmptyType, [], false) :=
  ⟨by decide, by decide, rfl⟩

/-- C4 (amended): resolution of a processor type against the catalog.  An
empty (falsy) type string is skipped silently — no error, no mutation.
For a non-empty type string: an exact catalog match leaves the processor
untouched (idempotence on fully-qualified types); otherwise the candidate
set is exactly the catalog identifiers ending in `.` plus the raw string
(the `fqcn == p_type` disjunct is vacuous off the exact-match path); no
candidate produces the does-not-exist error, a unique candidate rewrites
`type` in place and sets the dirty flag, several candidates produce a
single ambiguity error naming all of them and leave the processor
unchanged. -/
theorem C4_type_resolution (catalog : List String) (i : Nat) (p : SProc) :
    (p.ptype = "" → resolveOne catalog i p = (p, [], false)) ∧
    (p.ptype ∈ catalog → resolveOne catalog i p = (p, [], false)) ∧
    (p.ptype ≠ "" → p.ptype ∉ catalog →
      typeMatches catalog p.ptype =
        catalog.filter (fun f => strEndsWith f ("." ++ p.ptype)) ∧
      (typeMatches catalog p.ptype = [] →
        resolveOne catalog i p = (p, [.typeNotFound i p.name p.ptype], false)) ∧
      (∀ m, typeMatches catalog p.ptype = [m] →
        resolveOne catalog i p = ({ p with ptype := m }, [], true)) ∧
      (∀ m₁ m₂ ms, typeMatches catalog p.ptype = m₁ :: m₂ :: ms →
        resolveOne catalog i p =
          (p, [.typeAmbiguous i p.name p.ptype (m₁ :: m₂ :: ms)], false))) := by
  refine ⟨fun hemp => by simp [resolveOne, hemp], ?_, ?_⟩
  · intro hmem
    by_cases hemp : p.ptype = ""
    · simp [resolveOne, hemp]
    · simp [resolveOne, hemp, hmem]
  intro h hnotmem
  refine ⟨?_, ?_, ?_, ?_⟩
  · apply List.filter_congr
    intro f hf
    have hne : (f == p.ptype) = false := by
      rw [beq_eq_false_iff_ne]
      intro he
      exact hnotmem (he ▸ hf)
    simp [hne]
  · intro heq
    simp [resolveOne, h, hnotmem, heq]
  · intro m heq
    have hm : m ∈ catalog := by
      have hmm : m ∈ typeMatches catalog p.ptype := by simp [heq]
      exact List.mem_of_mem_filter hmm
    have hne : p.ptype ≠ m := fun hh => hnotmem (hh ▸ hm)
    simp [resolveOne, h, hnotmem, heq, hne]
  · intro m₁ m₂ ms heq
    simp [resolveOne, h, hnotmem, heq]

/-- C4 witness: a short type name with a unique catalog match is rewritten
to the fully-qualified identifier and the plan is marked dirty. -/
theorem C4_type_resolution_witness :
    (⟨"x", "n", "B", [], [], []⟩ : SProc).ptype ≠ "" ∧
    (⟨"x", "n", "B", [], [], []⟩ : SProc).ptype ∉ (["a.B"] : List String) ∧
    typeMatches ["a.B"] "B" = ["a.B"] ∧
    resolveOne ["a.B"] 0 ⟨"x", "n", "B", [], [], []⟩ =
      (⟨"x", "n", "a.B", [], [], []⟩, [], true) :=
  ⟨by decide, by decide, by decide, by
    have h := C4_type_resolution ["a.B"] 0 ⟨"x", "n", "B", [], [], []⟩
    exact (h.2.2 (by decide) (by decide)).2.2.1 "a.B" (by decide)⟩

/-- Unfolding `lookupProp` over a cons cell. -/
theorem lookupProp_cons (hd : String × String) (tl : List (String × String)) (k : String) :
    lookupProp (hd :: tl) k = if hd.1 == k then some hd.2 else lookupProp tl k := by
  simp only [lookupProp, List.find?]
  cases h : hd.1 == k <;> simp [h]

/-- Unfolding `setProp` over a cons cell. -/
theorem setProp_cons (hd : String × String) (tl : List (String × String)) (k v : String) :
    setProp (hd :: tl) k v =
      if hd.1 = k then
        (k, v) :: tl.map (fun kv => if kv.1 = k then (k, v) else kv)
      else hd :: setProp tl k v := by
  rcases Bool.eq_false_or_eq_true (hd.1 == k) with hb | hb
  · have h1 : hd.1 = k := beq_iff_eq.mp hb
    simp only [setProp, List.find?, hb]
    cases ht : (tl.find? (fun kv => kv.1 == k)).isSome <;> simp [ht, h1]
  · have h1 : ¬hd.1 = k := beq_eq_false_iff_ne.mp hb
    simp only [setProp, List.find?, hb]
    cases ht : (tl.find? (fun kv => kv.1 == k)).isSome <;> simp [ht, h1]

/-- Updating keys different from `k'` does not change the lookup at `k'`. -/
theorem lookupProp_map_irrelevant (tl : List (String × String)) (k v k' : String)
    (hne : k ≠ k') :
    lookupProp (tl.map (fun kv => if kv.1 = k then (k, v) else kv)) k' =
      lookupProp tl k' := by
  induction tl with
  | nil => rfl
  | cons hd tl ih =>
      by_cases h : hd.1 = k
      · have h2 : hd.1 ≠ k' := by rw [h]; exact hne
        simp [lookupProp_cons, h, h2, hne, ih]
      · simp [lookupProp_cons, h, ih]

/-- `setProp` stores the written value at its key. -/
theorem lookupProp_setProp_self (props : List (String × String)) (k v : String) :
    lookupProp (setProp props k v) k = some v := by
  induction props with
  | nil => simp [setProp, lookupProp, List.find?]
  | cons hd tl ih =>
      rw [setProp_cons]
      by_cases h : hd.1 = k
      · simp [h, lookupProp_cons]
      · simp [h, lookupProp_cons, ih]

/-- `setProp` leaves every other key unchanged. -/
theorem lookupProp_setProp_other (props : List (String × String)) (k v k' : String)
    (hne : k' ≠ k) : lookupProp (setProp props k v) k' = lookupProp props k' := by
  have hkk : (k == k') = false := beq_eq_false_iff_ne.mpr (Ne.symm hne)
  induction props with
  | nil => simp [setProp, lookupProp, List.find?, hkk]
  | cons hd tl ih =>
      rw [setProp_cons]
      by_cases h : hd.1 = k
      · have h2 : hd.1 ≠ k' := by rw [h]; exact Ne.symm hne
        simp [h, h2, lookupProp_cons, hkk,
          lookupProp_map_irrelevant tl k v k' (Ne.symm hne)]
      · by_cases h2 : hd.1 = k' <;> simp [h, h2, hne, lookupProp_cons, ih]

/-- One fold step equals folding the singleton list (definitional). -/
theorem autoCorrectFold_cons (pd : String × RDescriptor) (rest : List (String × RDescriptor))
    (acc : List (String × String) × Bool) :
    autoCorrectFold (pd :: rest) acc = autoCorrectFold rest (autoCorrectFold [pd] acc) := rfl

/-- The auto-correct fold never touches a property key that no descriptor
carries. -/
theorem autoCorrectFold_preserved (descs : List (String × RDescriptor)) (name : String)
    (h : name ∉ descs.map (·.1)) :
    ∀ acc : List (String × String) × Bool,
      lookupProp (autoCorrectFold descs acc).1 name = lookupProp acc.1 name := by
  induction descs with
  | nil => intro _; rfl
  | cons pd rest ih =>
      intro acc
      have hpd : name ≠ pd.1 := by
        intro he
        exact h (by simp [he])
      have hrest : name ∉ rest.map (·.1) := by
        intro he
        exact h (by simp [he])
      rw [autoCorrectFold_cons, ih hrest]
      by_cases hcs : pd.2.identifiesCS
      · cases hav : pd.2.allowableValues with
        | none => simp [autoCorrectFold, hcs, hav]
        | some l =>
            cases l with
            | nil => simp [autoCorrectFold, hcs, hav]
            | cons v vt =>
                cases vt with
                | nil =>
                    by_cases hlv : lookupProp acc.1 pd.1 = some v
                    · simp [autoCorrectFold, hcs, hav, hlv]
                    · simp [autoCorrectFold, hcs, hav, hlv,
                        lookupProp_setProp_other acc.1 pd.1 v name hpd]
                | cons w wt => simp [autoCorrectFold, hcs, hav]
      · simp [autoCorrectFold, hcs]

/-- After the auto-correct fold, every controller-service property with a
single allowable value holds that value (descriptor keys are unique, as
they come from a Python dict). -/
theorem autoCorrectFold_sets (descs : List (String × RDescriptor))
    (hnd : (descs.map (·.1)).Nodup) :
    ∀ (acc : List (String × String) × Bool) (name : String) (d : RDescriptor) (v : String),
      (name, d) ∈ descs → d.identifiesCS = true → d.allowableValues = some [v] →
      lookupProp (autoCorrectFold descs acc).1 name = some v := by
  induction descs with
  | nil => intro _ _ _ _ hmem; cases hmem
  | cons pd rest ih =>
      intro acc name d v hmem hcs hav
      rw [autoCorrectFold_cons]
      rcases List.mem_cons.mp hmem with heq | hmem'
      · obtain rfl : pd = (name, d) := heq.symm
        have hnd' := hnd
        rw [List.map_cons] at hnd'
        have hparts := List.nodup_cons.mp hnd'
        rw [autoCorrectFold_preserved rest name hparts.1]
        by_cases hlv : lookupProp acc.1 name = some v
        · simp [autoCorrectFold, hcs, hav, hlv]
        · simp [autoCorrectFold, hcs, hav, hlv, lookupProp_setProp_self]
      · have hnd' := hnd
        rw [List.map_cons] at hnd'
        exact ih (List.nodup_cons.mp hnd').2 _ name d v hmem' hcs hav

/-- C5 counterexample: the descriptor of property `p` exposes exactly one
allowable value `v` but does not identify a controller service; the claim
requires the differing current value `x` be rewritten to `v`, but the
auto-correct block leaves it untouched — only descriptors carrying
`identifiesControllerService` are auto-corrected. -/
theorem C5_counterexample :
    autoCorrectAll [("p", ⟨false, some ["v"]⟩)] [("p", "x")] = ([("p", "x")], false) ∧
    lookupProp (autoCorrectAll [("p", ⟨false, some ["v"]⟩)] [("p", "x")]).1 "p" ≠ some "v" :=
  ⟨rfl, by decide⟩

/-- C5 (amended): the automatic single-choice rewrite is restricted to
properties whose runtime descriptor identifies a controller service; for
every such property whose descriptor exposes exactly one allowable value,
after the auto-correct block (which runs before any oracle consult, on
every attempt whose creation succeeded and returned descriptors) the
property equals that value, whatever its input value was. -/
theorem C5_cs_single_choice (descs : List (String × RDescriptor))
    (props : List (String × String)) (hnd : (descs.map (·.1)).Nodup)
    (name : String) (d : RDescriptor) (v : String) (hmem : (name, d) ∈ descs)
    (hcs : d.identifiesCS = true) (hav : d.allowableValues = some [v]) :
    lookupProp (autoCorrectAll descs props).1 name = some v :=
  autoCorrectFold_sets descs hnd (props, false) name d v hmem hcs hav

/-- C5 witness: a controller-service property with one allowable value is
rewritten from `x` to `v`. -/
theorem C5_cs_single_choice_witness :
    (([("q", (⟨true, some ["v"]⟩ : RDescriptor))].map (·.1)).Nodup ∧
     ("q", (⟨true, some ["v"]⟩ : RDescriptor)) ∈
       [("q", (⟨true, some ["v"]⟩ : RDescriptor))] ∧
     (⟨true, some ["v"]⟩ : RDescriptor).identifiesCS = true ∧
     (⟨true, some ["v"]⟩ : RDescriptor).allowableValues = some ["v"]) ∧
    lookupProp (autoCorrectAll [("q", ⟨true, some ["v"]⟩)] [("q", "x")]).1 "q" = some "v" :=
  ⟨⟨by decide, by decide, rfl, rfl⟩,
   C5_cs_single_choice _ _ (by decide) "q" ⟨true, some ["v"]⟩ "v" (by decide) rfl rfl⟩

/-- The empty-id processor of the C6 counterexample: no relationships
auto-terminated. -/
def procEmptyId : SProc := ⟨"", "E", "t", [], [], []⟩

/-- The connection of the C6 counterexample: its `from_id` is the empty
string — equal to the processor's id — and it carries only `success`. -/
def connEmptyFrom : SConn := ⟨"c0", "", "p2", ["success"]⟩

/-- C6 counterexample: the processor's id equals the connection's
`from_id`, so per the claim it is the source of that connection, and the
claim's unaccounted set — available relationships minus auto-terminated
and the connection's relationship set — is `{failure}`, non-empty, so an
error naming it is demanded; but `if src:` (line 221) drops the falsy
`from_id` from `connections_map`, the empty id matches no key, and no
relationship error is emitted. -/
theorem C6_counterexample :
    connEmptyFrom.fromId = procEmptyId.id ∧
    ({"success", "failure"} : Finset String) \
      (procEmptyId.autoTerminated.toFinset ∪ connEmptyFrom.relationships.toFinset) =
      {"failure"} ∧
    relationshipErrors [connEmptyFrom] procEmptyId
      ({"success", "failure"} : Finset String) = [] :=
  ⟨rfl, by decide, by decide⟩

/-- C6 (amended): a processor with an empty (falsy) id never receives a
relationship error, whatever its connections; for processors with a
non-empty id, a relationship error is computed exactly when the processor
is the source of some connection and the runtime-reported available
relationships minus the union of its auto-terminated set and the
relationship sets of its outgoing connections is non-empty; the single
error carries exactly that set, and processors that are not connection
sources get no relationship error. -/
theorem C6_relationship_errors (conns : List SConn) (p : SProc) (avail : Finset String) :
    (p.id = "" → relationshipErrors conns p avail = []) ∧
    (p.id ≠ "" →
      ((∃ c ∈ conns, c.fromId = p.id) →
        relationshipErrors conns p avail =
          (if avail \ (p.autoTerminated.toFinset ∪ connectedRels conns p.id) = ∅ then []
           else [avail \ (p.autoTerminated.toFinset ∪ connectedRels conns p.id)])) ∧
      ((¬ ∃ c ∈ conns, c.fromId = p.id) → relationshipErrors conns p avail = [])) := by
  constructor
  · intro hemp
    have hnotmem : p.id ∉ connectionSources conns := by
      simp only [connectionSources, List.mem_map, List.mem_filter, decide_eq_true_eq]
      rintro ⟨c, ⟨_, hcne⟩, hceq⟩
      exact hcne (hceq.trans hemp)
    simp only [relationshipErrors, if_neg hnotmem]
  intro h
  have hiff : p.id ∈ connectionSources conns ↔ ∃ c ∈ conns, c.fromId = p.id := by
    simp only [connectionSources, List.mem_map, List.mem_filter, decide_eq_true_eq]
    constructor
    · rintro ⟨c, ⟨hc, _⟩, hceq⟩
      exact ⟨c, hc, hceq⟩
    · rintro ⟨c, hc, hceq⟩
      exact ⟨c, ⟨hc, hceq ▸ h⟩, hceq⟩
  constructor
  · intro hex
    simp only [relationshipErrors, if_pos (hiff.mpr hex)]
  · intro hnex
    simp only [relationshipErrors, if_neg (fun hmem => hnex (hiff.mp hmem))]

/-- The scenario processor of C7: available relationships reported by the
runtime are `success` and `failure`, `failure` auto-terminated. -/
def procX : SProc := ⟨"p1", "X", "t", [], [], ["failure"]⟩

/-- The scenario connection of C7, carrying `success` out of `p1`. -/
def connX : SConn := ⟨"c1", "p1", "p2", ["success"]⟩

/-- The runtime-reported available relationships of the C7 scenario. -/
def availX : Finset String := {"success", "failure"}

/-- C6 witness: the scenario source processor gets exactly the
if-characterised error list. -/
theorem C6_relationship_errors_witness :
    procX.id ≠ "" ∧
    relationshipErrors [connX] procX availX =
      (if availX \ (procX.autoTerminated.toFinset ∪ connectedRels [connX] procX.id) = ∅
       then []
       else [availX \ (procX.autoTerminated.toFinset ∪ connectedRels [connX] procX.id)]) :=
  ⟨by decide,
   ((C6_relationship_errors [connX] procX availX).2 (by decide)).1 ⟨connX, by decide, rfl⟩⟩

/-- C7 counterexample: after removing the only outgoing connection the
claim demands exactly one relationship error naming `{success}` — the
unaccounted set is indeed `{success}` — but the source emits no
relationship error at all, because the check is restricted to processors
that are sources of at least one connection. -/
theorem C7_counterexample :
    relationshipErrors [] procX availX = [] ∧
    availX \ (procX.autoTerminated.toFinset ∪ connectedRels [] procX.id) = {"success"} :=
  ⟨by decide, by decide⟩

/-- C7 (amended): with the `success` connection present no relationship
error is emitted, and after removing it the processor is no longer a
connection source, so again no relationship error is emitted (rather than
one naming `{success}`). -/
theorem C7_relationship_scenario :
    relationshipErrors [connX] procX availX = [] ∧
    relationshipErrors [] procX availX = [] :=
  ⟨by decide, by decide⟩

/-- C1: the sandbox instance is not deleted on every exit path.  On this
run the runtime creates the instance and reports
`supportsDynamicProperties: true`; the guarded block binding
`current_props_dict` (line 311–314) is skipped, the mis-indented loop at
line 315 then reads the unbound local, Python raises `NameError`, which
is not caught (`except` covers only `RequestException`), and the run
aborts between CREATE and DELETE: one instance created, zero delete
calls — the runtime is left with a sandbox instance. -/
theorem C1_sandbox_leak :
    (validateProcessorConfiguration ⟨3, false⟩ (fun _ => envDyn) [] [procDyn]).exc =
      some (.nameError "current_props_dict") ∧
    (validateProcessorConfiguration ⟨3, false⟩ (fun _ => envDyn) [] [procDyn]).st.created = 1 ∧
    (validateProcessorConfiguration ⟨3, false⟩ (fun _ => envDyn) [] [procDyn]).st.deleteCalls = 0 :=
  ⟨rfl, rfl, rfl⟩

/-- C9: flagging of unsupported dynamic properties crashes instead of
reporting.  The processor carries key `extra`, absent from the
descriptors of its non-dynamic type; the mis-indented loop reaches
`filtered_errors.append(...)` (line 318) before `filtered_errors` is
first bound (line 323), Python raises `NameError`, the inspection does
not complete, nothing is flagged, and the created instance leaks. -/
theorem C9_dynamic_flag_crash :
    (validateProcessorConfiguration ⟨3, true⟩ (fun _ => envNoDyn) [] [procExtra]).exc =
      some (.nameError "filtered_errors") ∧
    (validateProcessorConfiguration ⟨3, true⟩ (fun _ => envNoDyn) [] [procExtra]).st.errors = [] ∧
    (validateProcessorConfiguration ⟨3, true⟩ (fun _ => envNoDyn) [] [procExtra]).st.created = 1 ∧
    (validateProcessorConfiguration ⟨3, true⟩ (fun _ => envNoDyn) [] [procExtra]).st.deleteCalls = 0 :=
  ⟨rfl, rfl, rfl, rfl⟩

/-- C3 counterexample: the oracle client is configured (`maxRetries = 3`)
and the processor never produces a clean result, but the oracle returns
no fix on the first consult — the engine makes 1 creation attempt, not
`maxRetries + 1 = 4` as the claim states. -/
theorem C3_counterexample :
    (validateOneProc ⟨3, true⟩ envNoFix 0 [] procPlain).st.attempts = 1 ∧
    (validateOneProc ⟨3, true⟩ envNoFix 0 [] procPlain).st.attempts ≠ 3 + 1 :=
  ⟨rfl, by decide⟩

/-- Every loop iteration that breaks, errors out or raises has issued
exactly one creation attempt. -/
theorem attemptBody_inl_attempts (cfg : EngCfg) (env : SandboxEnv) (index : Nat)
    (conns : List SConn) (rc : Nat) (st : SandState) (res : SandResult)
    (h : attemptBody cfg env index conns rc st = .inl res) :
    res.st.attempts = st.attempts + 1 := by
  simp only [attemptBody] at h
  repeat' split at h
  all_goals first
    | (cases h; rfl)
    | cases h

/-- Every loop iteration that continues has issued exactly one creation
attempt. -/
theorem attemptBody_inr_attempts (cfg : EngCfg) (env : SandboxEnv) (index : Nat)
    (conns : List SConn) (rc : Nat) (st : SandState) (st' : SandState)
    (h : attemptBody cfg env index conns rc st = .inr st') :
    st'.attempts = st.attempts + 1 := by
  simp only [attemptBody] at h
  repeat' split at h
  all_goals first
    | (cases h; rfl)
    | cases h

/-- The retry loop issues at most `fuel` creation attempts beyond the
attempts already counted. -/
theorem attemptLoop_attempts_le (cfg : EngCfg) (env : SandboxEnv) (index : Nat)
    (conns : List SConn) :
    ∀ (fuel rc : Nat) (st : SandState),
      (attemptLoop cfg env index conns fuel rc st).st.attempts ≤ st.attempts + fuel := by
  intro fuel
  induction fuel with
  | zero => intro rc st; simp [attemptLoop]
  | succ f ih =>
      intro rc st
      simp only [attemptLoop]
      cases hb : attemptBody cfg env index conns rc st with
      | inl res =>
          have h1 := attemptBody_inl_attempts cfg env index conns rc st res hb
          dsimp only
          omega
      | inr st' =>
          have h1 := attemptBody_inr_attempts cfg env index conns rc st st' hb
          have h2 := ih (rc + 1) st'
          dsimp only
          omega

/-- Behaviour of one iteration under `envStat` for a processor in the
state of `procPlain`: the runtime reports one config error, the oracle
always fixes, so the iteration continues (preserving the processor state)
while retries remain and records-and-breaks on the last attempt; either
way exactly one creation attempt is issued. -/
theorem attemptBody_stationary (mr rc : Nat) (st : SandState)
    (hproc : st.proc = procPlain) :
    (rc < mr → ∃ st', attemptBody ⟨mr, true⟩ envStat 0 [] rc st = .inr st' ∧
        st'.proc = procPlain ∧ st'.attempts = st.attempts + 1) ∧
    (¬ rc < mr → ∃ res, attemptBody ⟨mr, true⟩ envStat 0 [] rc st = .inl res ∧
        res.st.attempts = st.attempts + 1) := by
  constructor
  · intro hrc
    simp only [attemptBody, envStat, respErr, fixStat, hproc, procPlain]
    norm_num [autoCorrectAll, autoCorrectFold, dynPropsLoop, filterRelUpstream,
      relationshipErrors, connectionSources, strStartsWith, hrc]
    refine ⟨_, rfl, rfl, rfl⟩
  · intro hrc
    simp only [attemptBody, envStat, respErr, fixStat, hproc, procPlain]
    norm_num [autoCorrectAll, autoCorrectFold, dynPropsLoop, filterRelUpstream,
      relationshipErrors, connectionSources, strStartsWith, hrc]
    refine ⟨_, rfl, rfl⟩

/-- Under `envStat` the retry loop spends its whole budget: starting with
`fuel + rc = mr + 1` remaining iterations it issues exactly `fuel`
further creation attempts. -/
theorem attemptLoop_stationary (mr : Nat) :
    ∀ (fuel rc : Nat) (st : SandState), st.proc = procPlain →
      fuel + rc = mr + 1 → 1 ≤ fuel →
      (attemptLoop ⟨mr, true⟩ envStat 0 [] fuel rc st).st.attempts =
        st.attempts + fuel := by
  intro fuel
  induction fuel with
  | zero => intro rc st _ _ hf; omega
  | succ f ih =>
      intro rc st hproc hsum _
      simp only [attemptLoop]
      by_cases hrc : rc < mr
      · obtain ⟨st', hb, hproc', hatt⟩ :=
          (attemptBody_stationary mr rc st hproc).1 hrc
        rw [hb]
        cases f with
        | zero => omega
        | succ f' =>
            dsimp only
            rw [ih (rc + 1) st' hproc' (by omega) (by omega), hatt]
            omega
      · obtain ⟨res, hb, hatt⟩ := (attemptBody_stationary mr rc st hproc).2 hrc
        rw [hb]
        dsimp only
        have hf : f = 0 := by omega
        subst hf
        omega

/-- C3 (amended): without a configured oracle client exactly one creation
attempt is made; with one, at most `maxRetries + 1` attempts are made —
never more — and the budget is met exactly when every attempt completes
inspection with errors and the oracle supplies a fix whenever consulted
(here: a runtime always reporting one config error and an oracle always
returning a fix). -/
theorem C3_attempt_budget (mr : Nat) (env : SandboxEnv) (i : Nat)
    (conns : List SConn) (p : SProc) :
    (validateOneProc ⟨mr, false⟩ env i conns p).st.attempts = 1 ∧
    (validateOneProc ⟨mr, true⟩ env i conns p).st.attempts ≤ mr + 1 ∧
    (validateOneProc ⟨mr, true⟩ envStat 0 [] procPlain).st.attempts = mr + 1 := by
  refine ⟨?_, ?_, ?_⟩
  · show (attemptLoop ⟨mr, false⟩ env i conns (maxAttemptsOf ⟨mr, false⟩) 0
      (initSandState p)).st.attempts = 1
    have hma : maxAttemptsOf ⟨mr, false⟩ = 1 := rfl
    rw [hma]
    simp only [attemptLoop]
    cases hb : attemptBody ⟨mr, false⟩ env i conns 0 (initSandState p) with
    | inl res =>
        have h1 := attemptBody_inl_attempts _ _ _ _ _ _ _ hb
        dsimp only
        simpa [initSandState] using h1
    | inr st' =>
        have h1 := attemptBody_inr_attempts _ _ _ _ _ _ _ hb
        dsimp only
        simpa [attemptLoop, initSandState] using h1
  · have h := attemptLoop_attempts_le ⟨mr, true⟩ env i conns
      (maxAttemptsOf ⟨mr, true⟩) 0 (initSandState p)
    have hma : maxAttemptsOf ⟨mr, true⟩ = mr + 1 := rfl
    rw [hma] at h
    simpa [validateOneProc, hma, initSandState] using h
  · have h := attemptLoop_stationary mr (mr + 1) 0 (initSandState procPlain)
      rfl (by omega) (by omega)
    simpa [validateOneProc, maxAttemptsOf, initSandState] using h

/-- The C8 counterexample plan: the short type `Foo` resolves uniquely
(an accepted repair mutating the in-memory plan), while the
`CREATE_NEW_CS` placeholder makes the same initial pass fail. -/
def planC8 : Plan := ⟨[⟨"p1", "N", "Foo", [("svc", "CREATE_NEW_CS")], [], []⟩], []⟩

/-- C8 counterexample: the initial pass accepts a type-rewrite repair
(`changes_made` set) but also reports the controller-service error; the
user exits at the prompt and the run terminates with the repair never
written to disk — one persistence violation, refuting unconditional
at-least-once persistence of accepted repairs. -/
theorem C8_counterexample :
    (initialPass ["a.Foo"] planC8).2.2 = true ∧
    (initialPass ["a.Foo"] planC8).2.1 ≠ [] ∧
    traceViolations (runModel ["a.Foo"] ⟨fun _ => none, .done false true⟩
      [.exitChoice] 0 planC8) = 1 :=
  ⟨by decide, by decide, by decide⟩

/-- C8 (amended): when the initial static pass is clean on the first
iteration AND the sandbox pass returns rather than raising, every
accepted repair is persisted before the run terminates — the
sandbox-phase mutations and any type rewrites are covered by the final
`save_plan` — so the run has zero persistence violations.  But repairs
are lost on two real paths: when the initial pass fails and the user
retries or exits (or the LLM structural fix fails), as the
counterexample shows; and when an exception escapes the sandbox pass
(the `NameError` paths proven reachable for C1/C9) after a repair was
accepted — the process dies before the save at line 711, at least one
persistence violation. -/
theorem C8_persistence (catalog : List String) (env : RunEnv)
    (choices : List UserChoice) (disk : Plan)
    (h : (initialPass catalog disk).2.1 = []) :
    (∀ ch clean, env.sandbox = .done ch clean →
      traceViolations (runModel catalog env choices 0 disk) = 0) ∧
    (∀ ch, env.sandbox = .crash ch →
      ((initialPass catalog disk).2.2 || ch) = true →
      1 ≤ traceViolations (runModel catalog env choices 0 disk)) := by
  constructor
  · intro ch clean henv
    cases choices with
    | nil =>
        cases hc : (initialPass catalog disk).2.2 <;> cases ch <;>
          simp [runModel, h, hc, henv, sandboxTrace, traceViolations, violAux]
    | cons c rest =>
        cases hc : (initialPass catalog disk).2.2 <;> cases ch <;>
          simp [runModel, h, hc, henv, sandboxTrace, traceViolations, violAux]
  · intro ch henv hdirty
    cases choices with
    | nil =>
        cases hc : (initialPass catalog disk).2.2 <;> cases ch
        · rw [hc] at hdirty
          simp at hdirty
        · simp [runModel, h, hc, henv, sandboxTrace, traceViolations, violAux]
        · simp [runModel, h, hc, henv, sandboxTrace, traceViolations, violAux]
        · simp [runModel, h, hc, henv, sandboxTrace, traceViolations, violAux]
    | cons c rest =>
        cases hc : (initialPass catalog disk).2.2 <;> cases ch
        · rw [hc] at hdirty
          simp at hdirty
        · simp [runModel, h, hc, henv, sandboxTrace, traceViolations, violAux]
        · simp [runModel, h, hc, henv, sandboxTrace, traceViolations, violAux]
        · simp [runModel, h, hc, henv, sandboxTrace, traceViolations, violAux]

/-- C8 witness: a plan that is clean on the first pass, with a sandbox
pass that returns, has a violation-free run. -/
theorem C8_persistence_witness :
    (initialPass [] (⟨[], []⟩ : Plan)).2.1 = [] ∧
    (⟨fun _ => none, .done false true⟩ : RunEnv).sandbox = .done false true ∧
    traceViolations (runModel [] ⟨fun _ => none, .done false true⟩ [] 0 ⟨[], []⟩) = 0 :=
  ⟨rfl, rfl,
   (C8_persistence [] ⟨fun _ => none, .done false true⟩ [] ⟨[], []⟩ rfl).1 false true rfl⟩

/-- C10 counterexample: the scheduling-repair parser receives a JSON
object containing none of the expected top-level keys (`scheduling`, nor
the configuration pair) — the claim requires it be treated as no fix, but
`fixes.get("scheduling", fixes)` falls back to the whole object, which is
truthy and therefore applied. -/
theorem C10_counterexample :
    schedFixApplied (some (.obj [("foo", .str "x")])) =
      some (.obj [("foo", .str "x")]) ∧
    jlookup [("foo", Json.str "x")] "scheduling" = none ∧
    jlookup [("foo", Json.str "x")] "properties" = none ∧
    jlookup [("foo", Json.str "x")] "auto_terminated_relationships" = none :=
  ⟨rfl, rfl, rfl, rfl⟩

/-- C10 (amended): the configuration-repair parser rejects parse
failures, non-objects and objects in which both expected keys are falsy,
and an applied configuration fix is exactly the parsed response; the
scheduling-repair parser rejects parse failures and non-objects, but an
object without the `scheduling` key is not rejected — it is applied
whole; in all cases an applied fix is drawn from the response (the value
under `scheduling`, or the response itself), never invented. -/
theorem C10_oracle_parsing :
    (parseConfigFixes none = none) ∧
    (∀ j : Json, jIsObj j = false → parseConfigFixes (some j) = none) ∧
    (∀ kvs : List (String × Json), otruthy (jlookup kvs "properties") = false →
      otruthy (jlookup kvs "auto_terminated_relationships") = false →
      parseConfigFixes (some (.obj kvs)) = none) ∧
    (∀ (r : Option Json) (f : Json), parseConfigFixes r = some f → r = some f) ∧
    (parseSchedFixes none = none) ∧
    (∀ j : Json, jIsObj j = false → parseSchedFixes (some j) = none) ∧
    (∀ (kvs : List (String × Json)) (f : Json),
      parseSchedFixes (some (.obj kvs)) = some f →
      jlookup kvs "scheduling" = some f ∨
        (jlookup kvs "scheduling" = none ∧ f = .obj kvs)) := by
  refine ⟨rfl, ?_, ?_, ?_, rfl, ?_, ?_⟩
  · intro j h
    cases j <;> simp_all [jIsObj, parseConfigFixes]
  · intro kvs h1 h2
    simp [parseConfigFixes, h1, h2]
  · intro r f h
    cases r with
    | none => simp [parseConfigFixes] at h
    | some j =>
        cases j <;> simp only [parseConfigFixes] at h <;> try cases h
        split at h
        · cases h; rfl
        · cases h
  · intro j h
    cases j <;> simp_all [jIsObj, parseSchedFixes]
  · intro kvs f h
    simp only [parseSchedFixes] at h
    cases hl : jlookup kvs "scheduling" with
    | some v =>
        rw [hl] at h
        simp only [Option.getD_some] at h
        left
        exact h
    | none =>
        rw [hl] at h
        simp only [Option.getD_none] at h
        right
        exact ⟨rfl, (Option.some_injective _ h).symm⟩

/-- C10 witness: a parsed object in which both expected configuration
keys are falsy yields no configuration fix. -/
theorem C10_oracle_parsing_witness :
    otruthy (jlookup [("x", Json.null)] "properties") = false ∧
    otruthy (jlookup [("x", Json.null)] "auto_terminated_relationships") = false ∧
    parseConfigFixes (some (.obj [("x", Json.null)])) = none :=
  ⟨rfl, rfl, C10_oracle_parsing.2.2.1 [("x", Json.null)] rfl rfl⟩
